import Mathlib

/-
Verification of the pyr agent pipeline (src/agent.py, src/tools/fs.py,
src/local-ai-agent/tools/shell.py) against its specification.

The Python sources are shallowly embedded: the filesystem is an explicit
state value (an association list of file paths to contents plus a list of
directories), shell commands are described by an oracle giving the observable
behaviour of the subprocess layer, and Python strings are Lean `String`s
processed through `List Char` helpers that mirror Python's `str.strip`,
`str.lower`, `str.startswith` and `str.endswith`.
-/

set_option autoImplicit false

namespace Pyr

/-! ## Python string primitives -/

/-- Characters removed by Python `str.strip()` / `str.rstrip()`:
space, tab, newline, carriage return, vertical tab, form feed. -/
def isPyWs (c : Char) : Bool :=
  c == ' ' || c == '\t' || c == '\n' || c == '\r' ||
    c == Char.ofNat 11 || c == Char.ofNat 12

/-- Python `str.rstrip()` on a character list. -/
def stripRightL (l : List Char) : List Char :=
  (l.reverse.dropWhile isPyWs).reverse

/-- Python `str.strip()` on a character list. -/
def stripL (l : List Char) : List Char :=
  stripRightL (l.dropWhile isPyWs)

/-- Python `str.strip()`. -/
def pyStrip (s : String) : String := ⟨stripL s.data⟩

/-- Python `str.rstrip()`. -/
def pyRstrip (s : String) : String := ⟨stripRightL s.data⟩

/-- Python `str.lower()` (ASCII case folding, which is all the sources use). -/
def pyLower (s : String) : String := ⟨s.data.map Char.toLower⟩

/-- Python `str.startswith(pre)`. -/
def strStarts (s pre : String) : Bool := pre.data.isPrefixOf s.data

/-- Python `str.endswith(suf)`. -/
def strEnds (s suf : String) : Bool := suf.data.isSuffixOf s.data

/-- Whether `needle` occurs as a contiguous sublist of `hay`. -/
def isInfixOfL (needle : List Char) : List Char → Bool
  | [] => needle.isEmpty
  | c :: cs => needle.isPrefixOf (c :: cs) || isInfixOfL needle cs

/-- Python `needle in haystack` on strings. -/
def strContains (hay needle : String) : Bool := isInfixOfL needle.data hay.data

/-! ## Filesystem model (tools/fs.py) -/

/-- Snapshot of the filesystem: regular files with their contents, and the
set of directories.  Keys are absolute path strings. -/
structure FS where
  files : List (String × String)
  dirs : List String
deriving DecidableEq, Repr

/-- Content of the regular file at `p`, if one exists. -/
def FS.lookupFile (fs : FS) (p : String) : Option String :=
  (fs.files.find? (fun kv => kv.1 == p)).map (·.2)

def FS.isFile (fs : FS) (p : String) : Bool := (fs.lookupFile p).isSome

def FS.isDir (fs : FS) (p : String) : Bool := fs.dirs.contains p

/-- Python `Path.exists()`: true for files and directories alike. -/
def FS.pathExists (fs : FS) (p : String) : Bool := fs.isFile p || fs.isDir p

/-- Create or overwrite the regular file at `p`. -/
def FS.setFile (fs : FS) (p c : String) : FS :=
  { fs with files := (p, c) :: fs.files.filter (fun kv => !(kv.1 == p)) }

/-- Remove the regular file at `p` (Python `Path.unlink`). -/
def FS.removeFile (fs : FS) (p : String) : FS :=
  { fs with files := fs.files.filter (fun kv => !(kv.1 == p)) }

/-- Split a character list on a separator character, Python `str.split(sep)`. -/
def splitChar (sep : Char) : List Char → List (List Char)
  | [] => [[]]
  | c :: cs =>
    match splitChar sep cs with
    | [] => [[c]]
    | h :: t => if c == sep then [] :: h :: t else (c :: h) :: t

/-- Join character lists with a separator character. -/
def joinChar (sep : Char) : List (List Char) → List Char
  | [] => []
  | [x] => x
  | x :: xs => x ++ sep :: joinChar sep xs

/-- The proper ancestor directories of a path, innermost last; these are the
directories `Path.parent.mkdir(parents=True, exist_ok=True)` guarantees to
exist after the call.  For `"a/b/c.txt"` this is `["a", "a/b"]`. -/
def parentDirs (p : String) : List String :=
  let comps := splitChar '/' p.data
  (List.range (comps.length - 1)).map (fun i => ⟨joinChar '/' (comps.take (i + 1))⟩)

/-- tools/fs.py `backup_file`: the backup of `p` lives at `p + ".backup"`
(`with_suffix(file_path.suffix + '.backup')` appends `.backup` to the name). -/
def backupPath (p : String) : String := p ++ ".backup"

/-- tools/fs.py `backup_file(file_path)`: copy the file to its backup path and
return it; return `none` when the path does not exist or cannot be copied
(e.g. it is a directory — `shutil.copy2` raises an `OSError` that the
function catches, printing a warning). -/
def backup_file (fs : FS) (p : String) : FS × Option String :=
  if !fs.pathExists p then (fs, none)
  else
    match fs.lookupFile p with
    | some c => (fs.setFile (backupPath p) c, some (backupPath p))
    | none => (fs, none)

/-- tools/fs.py `write_file(file_path, content, create_backup)`: back up an
existing target when requested, create the parent directories, then write.
Writing fails (returns `false`, an `IsADirectoryError` caught by the
function) exactly when a directory already sits at `p`. -/
def write_file (fs : FS) (p content : String) (create_backup : Bool) : FS × Bool :=
  let fs1 := if fs.pathExists p && create_backup then (backup_file fs p).1 else fs
  let fs2 : FS := { fs1 with dirs := parentDirs p ++ fs1.dirs }
  if fs.isDir p then (fs2, false) else (fs2.setFile p content, true)

/-- tools/fs.py `delete_file(file_path, create_backup)`: `false` when the path
does not exist; otherwise back up when requested and unlink.  Unlinking a
directory raises an `OSError` that the function catches, returning `false`. -/
def delete_file (fs : FS) (p : String) (create_backup : Bool) : FS × Bool :=
  if !fs.pathExists p then (fs, false)
  else
    let fs1 := if create_backup then (backup_file fs p).1 else fs
    if fs.isFile p then (fs1.removeFile p, true) else (fs1, false)

/-! ## File actions (agent.py `_action_create` / `_action_edit` / `_action_delete`) -/

/-- `self.cwd / target` for a relative target. -/
def joinPath (cwd target : String) : String := cwd ++ "/" ++ target

/-- agent.py `Agent._action_create(target, content)` (lines 1349-1361). -/
def action_create (fs : FS) (cwd target content : String) : String × FS :=
  let p := joinPath cwd target
  if fs.pathExists p then
    ("Error: File " ++ target ++ " already exists. Use 'edit' action instead.", fs)
  else
    let (fs', ok) := write_file fs p content false
    if ok then ("✓ Created " ++ target, fs')
    else ("✗ Failed to create " ++ target, fs')

/-- agent.py `Agent._action_edit(target, content)` (lines 1325-1347).  The
diff shown on stderr is not part of the state.  `read_file` returning `None`
(unreadable target) is the middle error branch. -/
def action_edit (fs : FS) (cwd target content : String) : String × FS :=
  let p := joinPath cwd target
  if !fs.pathExists p then
    ("Error: File " ++ target ++ " does not exist. Use 'create' action instead.", fs)
  else
    match fs.lookupFile p with
    | none => ("Error: Could not read " ++ target, fs)
    | some _ =>
      let (fs', ok) := write_file fs p content true
      if ok then ("✓ Edited " ++ target, fs')
      else ("✗ Failed to edit " ++ target, fs')

/-- Result of `_action_delete`: its message, the filesystem afterwards, and
whether the interactive confirmation prompt was shown. -/
structure DeleteOut where
  message : String
  fs : FS
  promptShown : Bool
deriving DecidableEq, Repr

/-- agent.py `Agent._action_delete(target, content)` (lines 1363-1379).
`reply` is the raw string `input()` returns at the confirmation prompt; the
source immediately normalizes it with `.strip().lower()` and deletes only on
the literal outcome `yes`. -/
def action_delete (fs : FS) (cwd target content reply : String) : DeleteOut :=
  let p := joinPath cwd target
  if !fs.pathExists p then
    ⟨"Warning: File " ++ target ++ " does not exist.", fs, false⟩
  else
    let confirm := pyLower (pyStrip reply)
    if confirm == "yes" then
      let (fs', ok) := delete_file fs p true
      if ok then ⟨"✓ Deleted " ++ target, fs', true⟩
      else ⟨"✗ Failed to delete " ++ target, fs', true⟩
    else ⟨"✗ Deletion cancelled", fs, true⟩

/-! ## Shell layer (local-ai-agent/tools/shell.py) -/

/-- shell.py `DANGEROUS_COMMANDS` (lines 15-18). -/
def DANGEROUS_COMMANDS : List String :=
  ["rm", "del", "format", "mkfs", "dd", "shutdown", "reboot",
   "sudo rm", "sudo del", "sudo format", "sudo mkfs"]

/-- shell.py `is_dangerous_command(command)` (lines 21-27):
`command.lower().strip()` starts with one of the dangerous prefixes. -/
def is_dangerous_command (command : String) : Bool :=
  let cmdLower := pyStrip (pyLower command)
  DANGEROUS_COMMANDS.any (fun d => strStarts cmdLower d)

/-- Observable behaviour of the subprocess layer for one command: how long
the process would run (`none` = it never terminates), and the exit code and
captured output it would report on completion.  The `except Exception`
branch of `run_command` (e.g. `shlex.split` failures) is represented by a
`Proc` whose result is the `(1, "", "Error executing command: ...")` triple
the handler returns. -/
structure Proc where
  dur : Option Nat
  rc : Int
  out : String
  err : String
deriving DecidableEq, Repr

/-- Result of `run_command`: either the call never returns (process runs
forever and no timeout was given), or it returns a `(returncode, stdout,
stderr)` triple.  `execAttempted` records whether the command was handed to
the subprocess layer at all (false when the deny-list blocked it), and
`blockTime` how many seconds the caller was blocked. -/
inductive RunRes where
  | blocked
  | returns (rc : Int) (out err : String) (execAttempted : Bool) (blockTime : Nat)
deriving DecidableEq, Repr

def RunRes.blockTimeOf : RunRes → Option Nat
  | .blocked => none
  | .returns _ _ _ _ bt => some bt

def dangerMsg (command : String) : String :=
  "Error: Command '" ++ command ++ "' is considered dangerous and was blocked."

def timedOutMsg (t : Nat) : String :=
  "Error: Command timed out after " ++ toString t ++ " seconds"

/-- shell.py `run_command(command, cwd, shell, capture_output, timeout)`
(lines 30-77).  The deny-list is consulted before anything is executed;
afterwards `subprocess.run` blocks until the process exits or the timeout
expires, and `TimeoutExpired` is converted to `(1, "", ...)`. -/
def run_command (command : String) (timeout : Option Nat) (p : Proc) : RunRes :=
  if is_dangerous_command command then
    .returns 1 "" (dangerMsg command) false 0
  else
    match timeout, p.dur with
    | some t, some d =>
      if t < d then .returns 1 "" (timedOutMsg t) true t
      else .returns p.rc p.out p.err true d
    | some t, none => .returns 1 "" (timedOutMsg t) true t
    | none, some d => .returns p.rc p.out p.err true d
    | none, none => .blocked

/-- The timeout `Agent._action_run` passes to `run_command`: the call on
agent.py line 1387 is `run_command(command, cwd=self.cwd)`, so the `timeout`
parameter is left at its default `None`. -/
def action_run_timeout : Option Nat := none

/-- agent.py `Agent._action_run(target, content)` (lines 1381-1398).
Returns `none` when the call never returns (unbounded block), otherwise the
result message together with the `execAttempted` flag of the shell layer. -/
def action_run (p : Proc) (target content : String) : Option (String × Bool) :=
  match run_command target action_run_timeout p with
  | .blocked => none
  | .returns rc out err att _ =>
    if rc == 0 then some ("✓ Command succeeded: " ++ target, att)
    else
      some ("✗ Command failed (exit " ++ toString rc ++ "): " ++ target ++ "\n" ++
        pyStrip (out ++ "\n" ++ err), att)

/-! ## Action records and the execution loop (agent.py `execute_actions`) -/

/-- One raw action record as extracted from the model response: the wire
fields `type`, `target`/`path`/`file_path`/`file` (each possibly absent)
and `content`. -/
structure RawAction where
  type : String
  target : Option String
  path : Option String
  file_path : Option String
  file : Option String
  content : String
deriving DecidableEq, Repr

/-- Python `a or b` for an optional string: `b` when the field is absent or
empty (falsy), the field's value otherwise. -/
def orStr (v : Option String) (w : String) : String :=
  match v with
  | some s => if s == "" then w else s
  | none => w

/-- agent.py lines 794-795: `(action.get('target') or action.get('path') or
action.get('file_path') or action.get('file') or '').strip()`. -/
def resolveTarget (a : RawAction) : String :=
  pyStrip (orStr a.target (orStr a.path (orStr a.file_path (orStr a.file ""))))

/-- agent.py `normalize_action_type` (lines 765-788): lower-case, strip, and
map the variation table onto the five canonical kinds; anything unmapped
passes through. -/
def normalize_action_type (action_type : String) : String :=
  let t := pyStrip (pyLower action_type)
  let variations : List (String × String) :=
    [("createfile", "create"), ("create_file", "create"), ("write", "create"),
     ("writefile", "create"), ("editfile", "edit"), ("edit_file", "edit"),
     ("modify", "edit"), ("update", "edit"), ("deletefile", "delete"),
     ("delete_file", "delete"), ("remove", "delete"), ("execute", "run"),
     ("exec", "run"), ("command", "run"), ("runcommand", "run"),
     ("msg", "message"), ("say", "message"), ("tell", "message")]
  match variations.find? (fun kv => kv.1 == t) with
  | some kv => kv.2
  | none => t

/-- Rendering of the raw record used by the `Action data:` diagnostic
(Python prints the dict itself). -/
def reprOptField (k : String) (v : Option String) : List String :=
  match v with
  | some s => ["'" ++ k ++ "': '" ++ s ++ "'"]
  | none => []

def reprRaw (a : RawAction) : String :=
  "\x7b" ++ String.intercalate ", "
    (["'type': '" ++ a.type ++ "'"] ++ reprOptField "target" a.target ++
      reprOptField "path" a.path ++ reprOptField "file_path" a.file_path ++
      reprOptField "file" a.file ++ ["'content': '" ++ a.content ++ "'"]) ++ "\x7d"

/-- A failed `run` outcome captured for the auto-debug loop
(agent.py lines 829-833). -/
structure FailedCmd where
  command : String
  purpose : String
  error : String
deriving DecidableEq, Repr

/-- What one pass of the `for action in actions` loop body of
`execute_actions` does for a single action: the result lines it appends,
the filesystem afterwards, the captured failed command if the action was a
failed `run`, and whether a shell command was handed to the subprocess
layer; or the iteration never returns because an un-timed-out command
blocks forever. -/
inductive StepRes where
  | results (lines : List String) (fs : FS) (failed : Option FailedCmd) (ranShell : Bool)
  | hangs
deriving DecidableEq, Repr

/-- agent.py `execute_actions` loop body (lines 790-848): normalize the
type, resolve the target through the alias chain, reject `edit/create/
delete` records with an empty target, enforce the design-mode extension
restriction for `create/edit`, then dispatch on the canonical kind.  Note
that the empty-target validation list on line 799 does NOT include `run`.
`runProc` gives the subprocess behaviour of each command and `reply` the
delete-confirmation input. -/
def execute_one (fs : FS) (cwd : String) (runProc : String → Proc)
    (reply mode projectName : String) (a : RawAction) : StepRes :=
  let action_type_raw := pyLower a.type
  let t := normalize_action_type action_type_raw
  let target := resolveTarget a
  let content := a.content
  if (t == "edit" || t == "create" || t == "delete") && target == "" then
    .results
      ["✗ Error: Action type '" ++ t ++
        "' requires a 'target' field (file path), but target is empty or missing.",
       "   Action data: " ++ reprRaw a] fs none false
  else if mode == "design" && (t == "create" || t == "edit") && !strEnds target ".design" then
    .results
      ["✗ Error: Design mode can ONLY create/edit .design files. Attempted to " ++
        t ++ ": " ++ target,
       "   Please use a .design file as the target (e.g., '" ++ projectName ++ ".design')"]
      fs none false
  else if t == "edit" then
    let (m, fs') := action_edit fs cwd target content
    .results [m] fs' none false
  else if t == "create" then
    let (m, fs') := action_create fs cwd target content
    .results [m] fs' none false
  else if t == "delete" then
    let out := action_delete fs cwd target content reply
    .results [out.message] out.fs none false
  else if t == "run" then
    match action_run (runProc target) target content with
    | none => .hangs
    | some (r, att) =>
      .results [r] fs (if strStarts r "✗" then some ⟨target, content, r⟩ else none) att
  else if t == "message" then
    .results ["Message: " ++ content] fs none false
  else
    let base := ["Unknown action type: '" ++ action_type_raw ++ "' (normalized: '" ++ t ++ "')",
                 "Valid action types are: edit, create, delete, run, message"]
    if strContains action_type_raw "file" || strContains action_type_raw "write" then
      let (m, fs') := action_create fs cwd target content
      .results (base ++ ["Hint: Did you mean 'create'? Attempting to create file anyway...", m])
        fs' none false
    else
      .results base fs none false

/-- A Python exception escaping a function of the pipeline, or an unbounded
block. -/
inductive PyErr where
  | nameError (ident : String)
  | hang
deriving DecidableEq, Repr

/-- The `for action in actions` loop of `execute_actions`, accumulating the
result lines and the failed `run` commands in order. -/
def execLoop (cwd : String) (runProc : String → Proc) (reply mode projectName : String) :
    FS → List RawAction → Except PyErr (List String × FS × List FailedCmd)
  | fs, [] => .ok ([], fs, [])
  | fs, a :: rest =>
    match execute_one fs cwd runProc reply mode projectName a with
    | .hangs => .error .hang
    | .results lines fs' failed _ =>
      match execLoop cwd runProc reply mode projectName fs' rest with
      | .error e => .error e
      | .ok (ls, fs'', fc) => .ok (lines ++ ls, fs'', failed.toList ++ fc)

/-- agent.py `_iterative_debug` lines 1168-1174: the error summary built
from the failed commands at the start of each iteration. -/
def error_summary (failed : List FailedCmd) : String :=
  String.intercalate "\n"
    (failed.foldr
      (fun c acc =>
        ("Command: " ++ c.command) :: ("Purpose: " ++ c.purpose) ::
          ("Error: " ++ c.error) :: "" :: acc)
      [])

/-- agent.py `Agent._iterative_debug(failed_commands, max_iterations=5)`
(lines 1152-1323).  Modelled faithfully up to its first exception: every
iteration of the `while iteration < max_iterations and not all_fixed` loop
builds the error summary and debug prompt, dispatches it through the nested
debug agent (`debugProcess`, an oracle for the nested pass's textual
result), reloads the project context, and then evaluates line 1219,
`files_changed = files_after - files_before`.  The name `files_before` is
never assigned anywhere in `_iterative_debug` (it is only assigned inside
the sibling `_debug_command`, line 1026), so the first loop iteration
raises `NameError: name 'files_before' is not defined`, for every oracle
and every failed-command list.  When `max_iterations = 0` the loop body
never runs and the function returns the "Debug incomplete" summary. -/
def iterative_debug (debugProcess : Nat → String) (maxIterations : Nat)
    (failedCommands : List FailedCmd) : Except PyErr String :=
  if 0 < maxIterations then
    let _summary := error_summary failedCommands
    let _debugResult := debugProcess 1
    .error (.nameError "files_before")
  else
    .ok ("⚠️  Debug incomplete: Some issues may remain after " ++ toString maxIterations ++
      " iteration(s). Manual intervention may be needed.")

/-- agent.py `Agent.execute_actions(actions, auto_debug=True)` (lines
759-860): run the action loop, and if any `run` action failed while
auto-debug is enabled in `craft`/`code` mode, hand the failed commands to
`_iterative_debug` (with its default budget of 5) and append its result to
the summary. -/
def execute_actions (cwd : String) (runProc : String → Proc)
    (reply mode projectName : String) (debugProcess : Nat → String) (fs : FS)
    (actions : List RawAction) (autoDebug : Bool) : Except PyErr (String × FS) :=
  match execLoop cwd runProc reply mode projectName fs actions with
  | .error e => .error e
  | .ok (results, fs', failed) =>
    if !failed.isEmpty && autoDebug && (mode == "craft" || mode == "code") then
      match iterative_debug debugProcess 5 failed with
      | .error e => .error e
      | .ok dbg =>
        .ok (String.intercalate "\n" (results ++ ["\n--- Debug Session ---", dbg]), fs')
    else
      .ok (String.intercalate "\n" results, fs')

/-! ## Design-mode normalization filter (agent.py `process`, lines 1425-1451) -/

/-- The keep condition of the design-mode pre-execution filter: `message`
actions always pass, any other action passes only when its resolved target
ends with `.design`. -/
def keepDesign (a : RawAction) : Bool :=
  pyLower a.type == "message" || strEnds (resolveTarget a) ".design"

/-- The rejection entry recorded for a filtered-out action:
`f"{action_type}: {target}"`. -/
def designRejectEntry (a : RawAction) : String :=
  pyLower a.type ++ ": " ++ resolveTarget a

/-- agent.py lines 1427-1440: split the batch into kept actions and
rejection entries, preserving order. -/
def designFilter : List RawAction → List RawAction × List String
  | [] => ([], [])
  | a :: rest =>
    let (k, r) := designFilter rest
    if keepDesign a then (a :: k, r) else (k, designRejectEntry a :: r)

/-- agent.py line 1449: the terminal error reported when the filter leaves
no actions, naming every rejected action. -/
def designFilterError (rejected : List String) : String :=
  "Error: All actions were filtered out. Design mode can only create/edit .design files.\nRejected actions: " ++
    String.intercalate ", " rejected

/-- agent.py lines 1448-1451: fail the whole batch when nothing survives
the filter, otherwise continue with the kept actions. -/
def designFilterOutcome (actions : List RawAction) : Except String (List RawAction) :=
  if (designFilter actions).1.isEmpty then .error (designFilterError (designFilter actions).2)
  else .ok (designFilter actions).1

/-! ## Truncation repair (agent.py `parse_response`, lines 366-404) -/

/-- Number of occurrences of a character, Python `str.count(c)`. -/
def countChar (c : Char) (l : List Char) : Nat := (l.filter (fun x => x == c)).length

/-- The escape-aware quote scan of agent.py lines 377-385: walk the text
tracking `escape_next` and `in_string`, toggling `in_string` at every
unescaped `"`. -/
def scanInString : List Char → Bool → Bool → Bool
  | [], _, inString => inString
  | c :: cs, escapeNext, inString =>
    if escapeNext then scanInString cs false inString
    else if c == '\\' then scanInString cs true inString
    else if c == '"' then scanInString cs false (!inString)
    else scanInString cs false inString

/-- Whether the text ends inside an unterminated quoted string. -/
def unterminatedString (l : List Char) : Bool := scanInString l false false

/-- agent.py lines 370-391, the truncation-repair transformation applied
when strict parsing fails: compute `missing = count('\x7b') - count('\x7d')`;
when some braces are missing, close the open quoted string if the
escape-aware scan ends inside one (`json_str.rstrip() + '"'`), then append
exactly `missing` closing braces.  (In the source this candidate is only
built when the `json.JSONDecodeError` mentions `Expecting`/`Unterminated`,
which is the case for truncated input.) -/
def truncationRepair (s : String) : String :=
  let openBraces := countChar '\x7b' s.data
  let closeBraces := countChar '\x7d' s.data
  if closeBraces < openBraces then
    let missing := openBraces - closeBraces
    let base := if unterminatedString s.data then pyRstrip s ++ "\"" else s
    base ++ ⟨List.replicate missing '\x7d'⟩
  else s

/-! ## A strict JSON parser (`json.loads`) to judge the repaired text -/

/-- JSON values; number literals are kept as their raw lexemes, and string
values as the unescaped-enough character list (escape sequences are kept
abstract since only parse success matters here). -/
inductive JVal where
  | jnull
  | jbool (b : Bool)
  | jnum (raw : List Char)
  | jstr (s : List Char)
  | jarr (items : List JVal)
  | jobj (members : List (List Char × JVal))

def isWsJ (c : Char) : Bool := c == ' ' || c == '\t' || c == '\n' || c == '\r'

def isDigitJ (c : Char) : Bool := '0' ≤ c && c ≤ '9'

def isHexJ (c : Char) : Bool :=
  isDigitJ c || ('a' ≤ c && c ≤ 'f') || ('A' ≤ c && c ≤ 'F')

/-- Parse the body of a JSON string after the opening quote: strict
`json.loads` semantics — raw control characters are rejected, escapes are
limited to the JSON set.  Returns the content and the remaining input. -/
def parseJString (fuel : Nat) (cs : List Char) : Option (List Char × List Char) :=
  match fuel with
  | 0 => none
  | fuel + 1 =>
    match cs with
    | [] => none
    | c :: rest =>
      if c == '"' then some ([], rest)
      else if c == '\\' then
        match rest with
        | [] => none
        | e :: rest' =>
          if e == 'u' then
            match rest' with
            | h1 :: h2 :: h3 :: h4 :: rest2 =>
              if isHexJ h1 && isHexJ h2 && isHexJ h3 && isHexJ h4 then
                match parseJString fuel rest2 with
                | some (s, r) => some ('?' :: s, r)
                | none => none
              else none
            | _ => none
          else if e == '"' || e == '\\' || e == '/' || e == 'b' || e == 'f' ||
              e == 'n' || e == 'r' || e == 't' then
            match parseJString fuel rest' with
            | some (s, r) => some (e :: s, r)
            | none => none
          else none
      else if c.toNat < 32 then none
      else
        match parseJString fuel rest with
        | some (s, r) => some (c :: s, r)
        | none => none

def takeDigits : List Char → List Char × List Char
  | [] => ([], [])
  | c :: cs =>
    if isDigitJ c then
      let (d, r) := takeDigits cs
      (c :: d, r)
    else ([], c :: cs)

/-- Parse a JSON number lexeme (strict grammar: optional minus, integer
part without leading zeros, optional fraction, optional exponent). -/
def parseJNumber (cs : List Char) : Option (List Char × List Char) :=
  let (sign, cs1) :=
    match cs with
    | '-' :: r => (['-'], r)
    | _ => (([] : List Char), cs)
  let (ds, r1) := takeDigits cs1
  match ds with
  | [] => none
  | _ =>
    let intOk :=
      match ds with
      | '0' :: _ :: _ => false
      | _ => true
    if !intOk then none
    else
      let fracStep : Option (List Char × List Char) :=
        match r1 with
        | '.' :: fr =>
          let (fd, rr) := takeDigits fr
          if fd.isEmpty then none else some ('.' :: fd, rr)
        | _ => some ([], r1)
      match fracStep with
      | none => none
      | some (fpart, r2) =>
        let expStep : Option (List Char × List Char) :=
          match r2 with
          | e :: er =>
            if e == 'e' || e == 'E' then
              let (es, er1) :=
                match er with
                | '+' :: q => ((['+'] : List Char), q)
                | '-' :: q => (['-'], q)
                | _ => ([], er)
              let (ed, er2) := takeDigits er1
              if ed.isEmpty then none else some (e :: es ++ ed, er2)
            else some ([], r2)
          | [] => some ([], r2)
        match expStep with
        | none => none
        | some (epart, r3) => some (sign ++ ds ++ fpart ++ epart, r3)

/-- Worklist element for the fuel-indexed JSON parser: a value to parse, or
the member/item loop of an object/array being parsed. -/
inductive PTask where
  | value (cs : List Char)
  | objMembers (cs : List Char) (acc : List (List Char × JVal))
  | arrItems (cs : List Char) (acc : List JVal)

/-- Recursive-descent JSON value parser, structurally recursive on fuel. -/
def parseJ : Nat → PTask → Option (JVal × List Char)
  | 0, _ => none
  | fuel + 1, .value cs =>
    let cs := cs.dropWhile isWsJ
    match cs with
    | [] => none
    | c :: rest =>
      if c == '"' then
        match parseJString (rest.length + 1) rest with
        | some (s, r) => some (.jstr s, r)
        | none => none
      else if c == '\x7b' then
        let body := rest.dropWhile isWsJ
        match body with
        | '\x7d' :: r => some (.jobj [], r)
        | _ => parseJ fuel (.objMembers body [])
      else if c == '[' then
        let body := rest.dropWhile isWsJ
        match body with
        | ']' :: r => some (.jarr [], r)
        | _ => parseJ fuel (.arrItems body [])
      else if c == 't' then
        if ("rue".data).isPrefixOf rest then some (.jbool true, rest.drop 3) else none
      else if c == 'f' then
        if ("alse".data).isPrefixOf rest then some (.jbool false, rest.drop 4) else none
      else if c == 'n' then
        if ("ull".data).isPrefixOf rest then some (.jnull, rest.drop 3) else none
      else
        match parseJNumber (c :: rest) with
        | some (raw, r) => some (.jnum raw, r)
        | none => none
  | fuel + 1, .objMembers cs acc =>
    let cs := cs.dropWhile isWsJ
    match cs with
    | '"' :: rest =>
      match parseJString (rest.length + 1) rest with
      | none => none
      | some (key, r1) =>
        match r1.dropWhile isWsJ with
        | ':' :: r2 =>
          match parseJ fuel (.value r2) with
          | none => none
          | some (v, r3) =>
            match r3.dropWhile isWsJ with
            | ',' :: r4 => parseJ fuel (.objMembers r4 (acc ++ [(key, v)]))
            | '\x7d' :: r4 => some (.jobj (acc ++ [(key, v)]), r4)
            | _ => none
        | _ => none
    | _ => none
  | fuel + 1, .arrItems cs acc =>
    match parseJ fuel (.value cs) with
    | none => none
    | some (v, r1) =>
      match r1.dropWhile isWsJ with
      | ',' :: r2 => parseJ fuel (.arrItems r2 (acc ++ [v]))
      | ']' :: r2 => some (.jarr (acc ++ [v]), r2)
      | _ => none

/-- `json.loads`: parse one JSON value and require only whitespace after
it. -/
def jsonParse (s : String) : Option JVal :=
  match parseJ (2 * s.data.length + 16) (.value s.data) with
  | none => none
  | some (v, rest) => if (rest.dropWhile isWsJ).isEmpty then some v else none

/-! ## Lemmas about the filesystem model -/

theorem find?_filter_key {β : Type} (l : List (String × β)) (p q : String) (h : q ≠ p) :
    (l.filter (fun kv => !(kv.1 == p))).find? (fun kv => kv.1 == q) =
      l.find? (fun kv => kv.1 == q) := by
  have hpq : (p == q) = false := by simp; exact Ne.symm h
  induction l with
  | nil => rfl
  | cons a l ih =>
    by_cases hp : a.1 = p
    · have hq : (a.1 == q) = false := by simp [hp]; exact Ne.symm h
      simp [List.filter_cons, List.find?_cons, hp, hq, ih, hpq, h]
    · by_cases hq : a.1 = q
      · simp [List.filter_cons, List.find?_cons, hp, hq, hpq, h]
      · simp [List.filter_cons, List.find?_cons, hp, hq, ih, hpq, h]

theorem find?_filter_key_self {β : Type} (l : List (String × β)) (p : String) :
    (l.filter (fun kv => !(kv.1 == p))).find? (fun kv => kv.1 == p) = none := by
  induction l with
  | nil => rfl
  | cons a l ih =>
    by_cases hp : a.1 = p
    · simp [List.filter_cons, hp, ih]
    · simp [List.filter_cons, List.find?_cons, hp, ih]

theorem lookupFile_setFile_self (fs : FS) (p c : String) :
    (fs.setFile p c).lookupFile p = some c := by
  simp [FS.setFile, FS.lookupFile, List.find?_cons]

theorem lookupFile_setFile_ne (fs : FS) (p c q : String) (h : q ≠ p) :
    (fs.setFile p c).lookupFile q = fs.lookupFile q := by
  have hpq : (p == q) = false := by simp; exact Ne.symm h
  simp [FS.setFile, FS.lookupFile, List.find?_cons, hpq, find?_filter_key _ _ _ h]

theorem lookupFile_removeFile_self (fs : FS) (p : String) :
    (fs.removeFile p).lookupFile p = none := by
  simp [FS.removeFile, FS.lookupFile, find?_filter_key_self]

theorem lookupFile_removeFile_ne (fs : FS) (p q : String) (h : q ≠ p) :
    (fs.removeFile p).lookupFile q = fs.lookupFile q := by
  simp [FS.removeFile, FS.lookupFile, find?_filter_key _ _ _ h]

theorem backupPath_ne (p : String) : backupPath p ≠ p := by
  intro h
  have hl := congrArg String.length h
  rw [backupPath, String.length_append] at hl
  have h7 : ".backup".length = 7 := by decide
  omega

/-! ## Claim theorems: file actions -/

/-- C3: a `Create` action on an existing target fails with the
"already exists" error and returns the filesystem unchanged (so the existing
file's contents are untouched); an `Edit` action on a missing target fails
with the "does not exist" error and returns the filesystem unchanged (so no
file is created there); a `Create` action on a missing target reports
success, writes the content at the target, ends with every parent directory
of the target present, and leaves the target's backup path exactly as it
was (no backup is taken). -/
theorem create_existing_edit_missing_spec :
    (∀ (fs : FS) (cwd target content : String),
        fs.pathExists (joinPath cwd target) = true →
        action_create fs cwd target content =
          ("Error: File " ++ target ++ " already exists. Use 'edit' action instead.", fs))
    ∧ (∀ (fs : FS) (cwd target content : String),
        fs.pathExists (joinPath cwd target) = false →
        action_edit fs cwd target content =
          ("Error: File " ++ target ++ " does not exist. Use 'create' action instead.", fs))
    ∧ (∀ (fs : FS) (cwd target content : String),
        fs.pathExists (joinPath cwd target) = false →
        (action_create fs cwd target content).1 = "✓ Created " ++ target
        ∧ (action_create fs cwd target content).2.lookupFile (joinPath cwd target) = some content
        ∧ (∀ d ∈ parentDirs (joinPath cwd target), d ∈ (action_create fs cwd target content).2.dirs)
        ∧ (action_create fs cwd target content).2.lookupFile (backupPath (joinPath cwd target)) =
            fs.lookupFile (backupPath (joinPath cwd target))) := by
  refine ⟨?_, ?_, ?_⟩
  · intro fs cwd target content h
    simp [action_create, h]
  · intro fs cwd target content h
    simp [action_edit, h]
  · intro fs cwd target content h
    have hdir : fs.isDir (joinPath cwd target) = false := by
      simp [FS.pathExists] at h; exact h.2
    have hcr : action_create fs cwd target content =
        ("✓ Created " ++ target,
          FS.setFile { fs with dirs := parentDirs (joinPath cwd target) ++ fs.dirs }
            (joinPath cwd target) content) := by
      simp [action_create, write_file, h, hdir]
    refine ⟨by rw [hcr], ?_, ?_, ?_⟩
    · rw [hcr]; exact lookupFile_setFile_self _ _ _
    · intro d hd
      rw [hcr]
      simp [FS.setFile]
      exact Or.inl hd
    · rw [hcr]
      rw [lookupFile_setFile_ne _ _ _ _ (backupPath_ne _)]
      rfl

/-- Witness for C3 at concrete inputs: creating over the existing
`/w/foo.txt` fails and leaves the filesystem untouched, editing the missing
`/w/bar.txt` fails and leaves the filesystem untouched, and creating the
missing `/w/sub/dir/new.txt` writes it, creates `/w/sub`, and adds no
backup. -/
theorem create_existing_edit_missing_spec_witness :
    action_create ⟨[("/w/foo.txt", "data")], ["/w"]⟩ "/w" "foo.txt" "new" =
      ("Error: File foo.txt already exists. Use 'edit' action instead.",
        ⟨[("/w/foo.txt", "data")], ["/w"]⟩)
    ∧ action_edit ⟨[("/w/foo.txt", "data")], ["/w"]⟩ "/w" "bar.txt" "x" =
      ("Error: File bar.txt does not exist. Use 'create' action instead.",
        ⟨[("/w/foo.txt", "data")], ["/w"]⟩)
    ∧ (action_create ⟨[("/w/foo.txt", "data")], ["/w"]⟩ "/w" "sub/dir/new.txt" "hello").2.lookupFile
        "/w/sub/dir/new.txt" = some "hello"
    ∧ "/w/sub" ∈ (action_create ⟨[("/w/foo.txt", "data")], ["/w"]⟩ "/w" "sub/dir/new.txt" "hello").2.dirs
    ∧ (action_create ⟨[("/w/foo.txt", "data")], ["/w"]⟩ "/w" "sub/dir/new.txt" "hello").2.lookupFile
        "/w/sub/dir/new.txt.backup" = none := by
  refine ⟨create_existing_edit_missing_spec.1 _ "/w" "foo.txt" "new" (by decide),
    create_existing_edit_missing_spec.2.1 _ "/w" "bar.txt" "x" (by decide),
    (create_existing_edit_missing_spec.2.2 _ "/w" "sub/dir/new.txt" "hello" (by decide)).2.1,
    (create_existing_edit_missing_spec.2.2 _ "/w" "sub/dir/new.txt" "hello" (by decide)).2.2.1
      "/w/sub" (by decide),
    ?_⟩
  have := (create_existing_edit_missing_spec.2.2
    (⟨[("/w/foo.txt", "data")], ["/w"]⟩ : FS) "/w" "sub/dir/new.txt" "hello" (by decide)).2.2.2
  rw [show backupPath (joinPath "/w" "sub/dir/new.txt") = "/w/sub/dir/new.txt.backup" from rfl] at this
  rw [this]
  decide

/-- C4: when the target of a `Delete` action is an existing file, the
confirmation prompt is always shown, the file is removed (with a backup at
its backup path) exactly when the prompt's outcome — the reply after
`.strip().lower()` — is the literal `yes`, and every other reply produces
the non-fatal "✗ Deletion cancelled" outcome with the filesystem unchanged,
so the target file is still present. -/
theorem delete_requires_yes_confirmation (fs : FS) (cwd target content reply old : String)
    (h : fs.lookupFile (joinPath cwd target) = some old) :
    (action_delete fs cwd target content reply).promptShown = true
    ∧ (pyLower (pyStrip reply) = "yes" →
        action_delete fs cwd target content reply =
          ⟨"✓ Deleted " ++ target,
            (fs.setFile (backupPath (joinPath cwd target)) old).removeFile (joinPath cwd target),
            true⟩
        ∧ (action_delete fs cwd target content reply).fs.lookupFile (joinPath cwd target) = none
        ∧ (action_delete fs cwd target content reply).fs.lookupFile
            (backupPath (joinPath cwd target)) = some old)
    ∧ (pyLower (pyStrip reply) ≠ "yes" →
        action_delete fs cwd target content reply = ⟨"✗ Deletion cancelled", fs, true⟩)
    ∧ ((action_delete fs cwd target content reply).fs.lookupFile (joinPath cwd target) = none
        ↔ pyLower (pyStrip reply) = "yes") := by
  have hfile : fs.isFile (joinPath cwd target) = true := by
    simp [FS.isFile, h]
  have hex : fs.pathExists (joinPath cwd target) = true := by
    simp [FS.pathExists, hfile]
  by_cases hr : pyLower (pyStrip reply) = "yes"
  · have hdel : action_delete fs cwd target content reply =
        ⟨"✓ Deleted " ++ target,
          (fs.setFile (backupPath (joinPath cwd target)) old).removeFile (joinPath cwd target),
          true⟩ := by
      simp [action_delete, hex, hr, delete_file, backup_file, hfile, h]
    have h1 : (action_delete fs cwd target content reply).fs.lookupFile
        (joinPath cwd target) = none := by
      rw [hdel]; exact lookupFile_removeFile_self _ _
    have h2 : (action_delete fs cwd target content reply).fs.lookupFile
        (backupPath (joinPath cwd target)) = some old := by
      rw [hdel]
      rw [lookupFile_removeFile_ne _ _ _ (backupPath_ne _)]
      exact lookupFile_setFile_self _ _ _
    exact ⟨by rw [hdel], fun _ => ⟨hdel, h1, h2⟩, fun hne => absurd hr hne,
      iff_of_true h1 hr⟩
  · have hdel : action_delete fs cwd target content reply =
        ⟨"✗ Deletion cancelled", fs, true⟩ := by
      simp [action_delete, hex, hr]
    refine ⟨by rw [hdel], fun hy => absurd hy hr, fun _ => hdel, ?_⟩
    rw [hdel]
    simp [h, hr]

/-- Witness for C4 at concrete inputs: replying `no` cancels and keeps
`/w/foo.txt`; replying `yes` removes it and leaves the backup. -/
theorem delete_requires_yes_confirmation_witness :
    action_delete ⟨[("/w/foo.txt", "data")], ["/w"]⟩ "/w" "foo.txt" "stale" "no" =
      ⟨"✗ Deletion cancelled", ⟨[("/w/foo.txt", "data")], ["/w"]⟩, true⟩
    ∧ (action_delete ⟨[("/w/foo.txt", "data")], ["/w"]⟩ "/w" "foo.txt" "stale" "yes").fs.lookupFile
        "/w/foo.txt" = none
    ∧ (action_delete ⟨[("/w/foo.txt", "data")], ["/w"]⟩ "/w" "foo.txt" "stale" "yes").fs.lookupFile
        "/w/foo.txt.backup" = some "data" := by
  refine ⟨(delete_requires_yes_confirmation _ "/w" "foo.txt" "stale" "no" "data"
      (by decide)).2.2.1 (by decide), ?_, ?_⟩
  · exact ((delete_requires_yes_confirmation _ "/w" "foo.txt" "stale" "yes" "data"
      (by decide)).2.1 (by decide)).2.1
  · have := ((delete_requires_yes_confirmation
      (⟨[("/w/foo.txt", "data")], ["/w"]⟩ : FS) "/w" "foo.txt" "stale" "yes" "data"
      (by decide)).2.1 (by decide)).2.2
    rw [show backupPath (joinPath "/w" "foo.txt") = "/w/foo.txt.backup" from rfl] at this
    exact this

/-- C5: a `Run` command matched by the deny-list of destructive prefixes is
blocked before anything executes: for every timeout and every possible
subprocess behaviour, `run_command` returns the failure triple
`(1, "", dangerMsg)` with the subprocess layer never invoked. -/
theorem dangerous_command_blocked_before_execution
    (command : String) (timeout : Option Nat) (p : Proc)
    (h : is_dangerous_command command = true) :
    run_command command timeout p = .returns 1 "" (dangerMsg command) false 0 := by
  simp [run_command, h]

/-- Witness for C5: `rm -rf build` matches the deny-list; it is blocked with
no subprocess started, and `_action_run` turns this into a failure
outcome. -/
theorem dangerous_command_blocked_before_execution_witness :
    is_dangerous_command "rm -rf build" = true
    ∧ run_command "rm -rf build" none ⟨some 1, 0, "", ""⟩ =
        .returns 1 "" (dangerMsg "rm -rf build") false 0
    ∧ action_run ⟨some 1, 0, "", ""⟩ "rm -rf build" "clean up" =
        some ("✗ Command failed (exit 1): rm -rf build\n" ++ dangerMsg "rm -rf build", false) :=
  ⟨by decide, dangerous_command_blocked_before_execution _ _ _ (by decide), by decide⟩

/-- C10: a `Delete` action whose target does not exist returns the non-fatal
warning outcome immediately: no confirmation prompt is shown and the
filesystem is returned unchanged (so no backup is created). -/
theorem delete_missing_target_warns (fs : FS) (cwd target content reply : String)
    (h : fs.pathExists (joinPath cwd target) = false) :
    action_delete fs cwd target content reply =
      ⟨"Warning: File " ++ target ++ " does not exist.", fs, false⟩ := by
  simp [action_delete, h]

/-- Witness for C10: deleting the missing `/w/ghost.txt` warns without
prompting and leaves the filesystem unchanged. -/
theorem delete_missing_target_warns_witness :
    action_delete ⟨[("/w/foo.txt", "data")], ["/w"]⟩ "/w" "ghost.txt" "r" "yes" =
      ⟨"Warning: File ghost.txt does not exist.", ⟨[("/w/foo.txt", "data")], ["/w"]⟩, false⟩ :=
  delete_missing_target_warns _ "/w" "ghost.txt" "r" "yes" (by decide)

/-! ## Claim theorems: execution loop and repair loop -/

/-- C1 (refuted by the code): the pipeline does NOT convert every failure
into a textual outcome.  Executing a single failing `run` action in `code`
mode (auto-debug enabled) enters the auto-repair loop, whose very first
iteration evaluates the undefined name `files_before` (agent.py line 1219),
so a `NameError` — not a textual summary — escapes `execute_actions` to the
top-level caller. -/
theorem pipeline_crashes_in_repair_loop :
    execute_actions "/w"
        (fun _ => ⟨some 1, 2, "", "make: *** No targets specified.  Stop."⟩)
        "" "code" "proj" (fun _ => "I analyzed the failure.") ⟨[], []⟩
        [⟨"run", some "make", none, none, none, "build the project"⟩] true =
      .error (.nameError "files_before") := by
  rfl

/-- C2 (refuted by the code): a repair session with `maxIterations = 3`
never terminates in `Exhausted` after 3 iterations: for every nested-pass
oracle and every failed-command set, the first loop iteration of
`_iterative_debug` raises the `files_before` NameError, so the session
crashes during iteration 1 instead of completing 3 iterations. -/
theorem repair_budget3_crashes_in_first_iteration
    (debugProcess : Nat → String) (failedCommands : List FailedCmd) :
    iterative_debug debugProcess 3 failedCommands = .error (.nameError "files_before") :=
  rfl

/-- C6 counterexample: a `Run` record whose resolved target is empty is NOT
rejected by the empty-target validation (agent.py line 799 lists only
`edit`, `create`, `delete`): it is dispatched to the shell layer, which
attempts execution, and the result lines are a command failure — not the
validation diagnostic the claim requires. -/
theorem empty_target_run_not_rejected :
    execute_one ⟨[], []⟩ "/w"
        (fun _ => ⟨some 0, 1, "", "Error executing command: empty command"⟩)
        "" "code" "proj" ⟨"run", some "", none, none, none, ""⟩ =
      .results ["✗ Command failed (exit 1): \nError executing command: empty command"]
        ⟨[], []⟩
        (some ⟨"", "", "✗ Command failed (exit 1): \nError executing command: empty command"⟩)
        true
    ∧ execute_one ⟨[], []⟩ "/w"
        (fun _ => ⟨some 0, 1, "", "Error executing command: empty command"⟩)
        "" "code" "proj" ⟨"run", some "", none, none, none, ""⟩ ≠
      .results
        ["✗ Error: Action type 'run' requires a 'target' field (file path), but target is empty or missing.",
         "   Action data: " ++ reprRaw ⟨"run", some "", none, none, none, ""⟩]
        ⟨[], []⟩ none false :=
  ⟨by decide, by decide⟩

/-- C6 amended: the empty-target validation covers exactly the `Edit`,
`Create` and `Delete` kinds — every such record with an empty resolved
target is rejected with the explicit diagnostic naming the normalized
action kind and the raw payload, the filesystem is unchanged, no failed
command is captured, and no shell execution happens; `Run` records are not
validated this way. -/
theorem empty_target_rejected_for_file_kinds
    (fs : FS) (cwd : String) (runProc : String → Proc) (reply mode projectName : String)
    (a : RawAction)
    (hk : normalize_action_type (pyLower a.type) = "edit" ∨
        normalize_action_type (pyLower a.type) = "create" ∨
        normalize_action_type (pyLower a.type) = "delete")
    (ht : resolveTarget a = "") :
    execute_one fs cwd runProc reply mode projectName a =
      .results
        ["✗ Error: Action type '" ++ normalize_action_type (pyLower a.type) ++
          "' requires a 'target' field (file path), but target is empty or missing.",
         "   Action data: " ++ reprRaw a] fs none false := by
  rcases hk with hk | hk | hk <;> simp [execute_one, hk, ht]

/-- Witness for the amended C6: a `delete` record with no target field at
all is rejected with the diagnostic. -/
theorem empty_target_rejected_for_file_kinds_witness :
    execute_one ⟨[], []⟩ "/w" (fun _ => ⟨some 0, 0, "", ""⟩) "" "code" "proj"
        ⟨"delete", none, none, none, none, "why"⟩ =
      .results
        ["✗ Error: Action type 'delete' requires a 'target' field (file path), but target is empty or missing.",
         "   Action data: " ++ reprRaw ⟨"delete", none, none, none, none, "why"⟩]
        ⟨[], []⟩ none false :=
  empty_target_rejected_for_file_kinds _ _ _ _ _ _ _
    (Or.inr (Or.inr (by decide))) (by decide)

/-- C7: in design mode, a `create`/`edit` action is kept by the
pre-execution filter exactly when its resolved target ends with `.design`;
`message` actions are always kept; the batch from the spec keeps its first
and third actions and rejects the second; and when nothing survives the
filter the outcome is the terminal error built from all rejection
entries (each of which names the rejected action's kind and target). -/
theorem design_mode_filter_spec :
    (∀ a : RawAction, (pyLower a.type = "create" ∨ pyLower a.type = "edit") →
        (keepDesign a = true ↔ strEnds (resolveTarget a) ".design" = true))
    ∧ (∀ a : RawAction, pyLower a.type = "message" → keepDesign a = true)
    ∧ designFilter
        [⟨"create", some "a.design", none, none, none, "x"⟩,
         ⟨"create", some "b.py", none, none, none, "y"⟩,
         ⟨"message", some "", none, none, none, "hi"⟩] =
      ([⟨"create", some "a.design", none, none, none, "x"⟩,
        ⟨"message", some "", none, none, none, "hi"⟩], ["create: b.py"])
    ∧ (∀ actions : List RawAction, (designFilter actions).1 = [] →
        designFilterOutcome actions =
          .error (designFilterError (designFilter actions).2)) := by
  refine ⟨?_, ?_, by decide, ?_⟩
  · intro a h
    rcases h with h | h <;> simp [keepDesign, h]
  · intro a h
    simp [keepDesign, h]
  · intro actions h
    simp [designFilterOutcome, h]

/-- Witness for C7: the `b.py` create action's keep-decision coincides with
its extension test, the message action is kept, and a batch whose only
action is rejected yields the terminal error naming it. -/
theorem design_mode_filter_spec_witness :
    (keepDesign ⟨"create", some "b.py", none, none, none, "y"⟩ = true ↔
      strEnds (resolveTarget ⟨"create", some "b.py", none, none, none, "y"⟩) ".design" = true)
    ∧ keepDesign ⟨"message", some "", none, none, none, "hi"⟩ = true
    ∧ designFilterOutcome [⟨"create", some "b.py", none, none, none, "y"⟩] =
        .error (designFilterError ["create: b.py"]) := by
  refine ⟨design_mode_filter_spec.1 _ (Or.inl (by decide)),
    design_mode_filter_spec.2.1 _ (by decide), ?_⟩
  have h := design_mode_filter_spec.2.2.2
    [⟨"create", some "b.py", none, none, none, "y"⟩] (by decide)
  have h2 : (designFilter [⟨"create", some "b.py", none, none, none, "y"⟩]).2 =
      ["create: b.py"] := by decide
  rw [h2] at h
  exact h

/-! ## Claim theorems: truncation repair and run timeouts -/

theorem countChar_append (c : Char) (a b : List Char) :
    countChar c (a ++ b) = countChar c a + countChar c b := by
  simp [countChar, List.filter_append]

theorem countChar_replicate_self (c : Char) (n : Nat) :
    countChar c (List.replicate n c) = n := by
  induction n with
  | zero => rfl
  | succ n ih => simp [countChar, List.replicate_succ, List.filter_cons] at ih ⊢

theorem countChar_replicate_ne (c d : Char) (h : c ≠ d) (n : Nat) :
    countChar c (List.replicate n d) = 0 := by
  induction n with
  | zero => rfl
  | succ n ih =>
    have hdc : (d == c) = false := by simp; exact Ne.symm h
    simp [countChar, List.replicate_succ, List.filter_cons, hdc] at ih ⊢

theorem countChar_reverse (c : Char) (l : List Char) :
    countChar c l.reverse = countChar c l := by
  simp [countChar, List.filter_reverse]

theorem countChar_dropWhile_pyWs (c : Char) (h : isPyWs c = false) (l : List Char) :
    countChar c (l.dropWhile isPyWs) = countChar c l := by
  induction l with
  | nil => rfl
  | cons a l ih =>
    by_cases ha : isPyWs a = true
    · have hac : (a == c) = false := by
        simp
        intro he
        rw [he] at ha
        rw [h] at ha
        exact Bool.noConfusion ha
      simp [List.dropWhile_cons, ha, countChar, List.filter_cons, hac] at ih ⊢
      exact ih
    · simp [List.dropWhile_cons, ha]

theorem countChar_stripRight (c : Char) (h : isPyWs c = false) (l : List Char) :
    countChar c (stripRightL l) = countChar c l := by
  rw [stripRightL, countChar_reverse, countChar_dropWhile_pyWs c h, countChar_reverse]

/-- The truncated-mid-content-string example used against the claim: two
unmatched opening braces, the scan ends inside the `content` string, and
the truncation point is inside the `actions` array. -/
def exTrunc : String :=
  "\x7b\"actions\": [\x7b\"type\": \"create\", \"target\": \"a.py\", \"content\": \"print("

/-- A truncated-mid-content-string input with no open array. -/
def exSimple : String := "\x7b\"content\": \"hello"

/-- C8 counterexample: `exTrunc` is truncated mid-string inside a `content`
field and has exactly 2 more `\x7b` than `\x7d`; the repair closes the string
and appends exactly 2 closing braces — but the repaired text still fails to
parse, because the open `[` of the `actions` array is never closed (the
repair appends only `\x7d`).  So the claim's "the repaired text parses
successfully" is false at this input. -/
theorem truncation_repair_fails_inside_actions_array :
    countChar '\x7b' exTrunc.data = countChar '\x7d' exTrunc.data + 2
    ∧ unterminatedString exTrunc.data = true
    ∧ truncationRepair exTrunc = exTrunc ++ "\"\x7d\x7d"
    ∧ (jsonParse (truncationRepair exTrunc)).isNone = true := by
  refine ⟨by decide, by decide, by decide, by decide⟩

/-- C8 amended: whenever the input has more `\x7b` than `\x7d`, the repair
appends exactly the missing number of closing braces (afterwards both brace
counts equal the original `\x7b` count) and, when the escape-aware scan ends
inside a string, first closes that string; the repaired text parses
successfully when no array bracket is left open — as on `exSimple`, where
the repair yields a parseable object — but not in general. -/
theorem truncation_repair_appends_missing_braces :
    (∀ s : String, countChar '\x7d' s.data < countChar '\x7b' s.data →
        countChar '\x7b' (truncationRepair s).data = countChar '\x7b' s.data
        ∧ countChar '\x7d' (truncationRepair s).data = countChar '\x7b' s.data)
    ∧ truncationRepair exSimple = exSimple ++ "\"\x7d"
    ∧ (jsonParse (truncationRepair exSimple)).isSome = true := by
  refine ⟨?_, by decide, by decide⟩
  intro s h
  have hob : isPyWs '\x7b' = false := by decide
  have hcb : isPyWs '\x7d' = false := by decide
  have hqo : countChar '\x7b' ("\"" : String).data = 0 := by decide
  have hqc : countChar '\x7d' ("\"" : String).data = 0 := by decide
  have hro : countChar '\x7b' (List.replicate (countChar '\x7b' s.data - countChar '\x7d' s.data) '\x7d') = 0 :=
    countChar_replicate_ne _ _ (by decide) _
  have hrc : countChar '\x7d' (List.replicate (countChar '\x7b' s.data - countChar '\x7d' s.data) '\x7d') =
      countChar '\x7b' s.data - countChar '\x7d' s.data :=
    countChar_replicate_self _ _
  by_cases hu : unterminatedString s.data = true
  · have hrepair : (truncationRepair s).data =
        stripRightL s.data ++ ("\"" : String).data ++
          List.replicate (countChar '\x7b' s.data - countChar '\x7d' s.data) '\x7d' := by
      simp [truncationRepair, h, hu, pyRstrip]
    rw [hrepair]
    rw [countChar_append, countChar_append, countChar_append, countChar_append]
    rw [countChar_stripRight _ hob, countChar_stripRight _ hcb]
    rw [hqo, hqc, hro, hrc]
    omega
  · have hrepair : (truncationRepair s).data =
        s.data ++ List.replicate (countChar '\x7b' s.data - countChar '\x7d' s.data) '\x7d' := by
      simp [truncationRepair, h, hu]
    rw [hrepair]
    rw [countChar_append, countChar_append]
    rw [hro, hrc]
    omega

/-- Witness for the amended C8: `exSimple` satisfies the brace-count
hypothesis, and after repair both brace counts equal the original opening
count (exactly one closing brace was appended). -/
theorem truncation_repair_appends_missing_braces_witness :
    countChar '\x7d' exSimple.data < countChar '\x7b' exSimple.data
    ∧ countChar '\x7d' (truncationRepair exSimple).data = countChar '\x7b' exSimple.data :=
  ⟨by decide, (truncation_repair_appends_missing_braces.1 exSimple (by decide)).2⟩

/-- C9 counterexample: `_action_run` leaves `run_command`'s `timeout`
parameter at its default `None` (agent.py line 1387), so a `Run` action
whose command never terminates blocks without bound — the call never
returns, and there is no timeout failure outcome.  This refutes "every Run
action executes its shell command with an explicit timeout". -/
theorem run_action_without_timeout_blocks :
    action_run_timeout = none
    ∧ action_run ⟨none, 0, "", ""⟩ "./server --serve" "start the dev server" = none
    ∧ (run_command "./server --serve" none ⟨none, 0, "", ""⟩).blockTimeOf = none :=
  ⟨rfl, by decide, by decide⟩

/-- C9 amended: when `run_command` is given an explicit timeout `t` it
always returns, blocking at most `t` seconds, and a process that would
outlive the timeout produces the single failure outcome
`(1, "", timedOutMsg t)` with no retry; but `_action_run` itself passes no
timeout, so the shell execution of a `Run` action has no such bound. -/
theorem run_command_timeout_bounds_blocking (t : Nat) (p : Proc) (command : String) :
    action_run_timeout = none
    ∧ (∃ bt, (run_command command (some t) p).blockTimeOf = some bt ∧ bt ≤ t)
    ∧ (is_dangerous_command command = false → p.dur = none →
        run_command command (some t) p = .returns 1 "" (timedOutMsg t) true t) := by
  refine ⟨rfl, ?_, ?_⟩
  · by_cases hd : is_dangerous_command command = true
    · exact ⟨0, by simp [run_command, hd, RunRes.blockTimeOf], Nat.zero_le t⟩
    · rcases hp : p.dur with _ | d
      · exact ⟨t, by simp [run_command, hd, hp, RunRes.blockTimeOf], Nat.le_refl t⟩
      · by_cases htd : t < d
        · exact ⟨t, by simp [run_command, hd, hp, htd, RunRes.blockTimeOf], Nat.le_refl t⟩
        · exact ⟨d, by simp [run_command, hd, hp, htd, RunRes.blockTimeOf], by omega⟩
  · intro hd hp
    simp [run_command, hd, hp]

/-- Witness for the amended C9: with timeout 7 and a process that never
terminates, `run_command` blocks 7 seconds and returns the timeout
failure. -/
theorem run_command_timeout_bounds_blocking_witness :
    (∃ bt, (run_command "sleep 100" (some 7) ⟨none, 0, "", ""⟩).blockTimeOf = some bt ∧ bt ≤ 7)
    ∧ run_command "sleep 100" (some 7) ⟨none, 0, "", ""⟩ = .returns 1 "" (timedOutMsg 7) true 7 :=
  ⟨(run_command_timeout_bounds_blocking 7 ⟨none, 0, "", ""⟩ "sleep 100").2.1,
   (run_command_timeout_bounds_blocking 7 ⟨none, 0, "", ""⟩ "sleep 100").2.2 (by decide) rfl⟩

end Pyr
